import Mathlib

/-!
Shallow embedding of the whisper-board server (`src/app.py`).

Modelling conventions:
- Timestamps (`created_at`, the shared `LAST_UPDATE_TIME`) are integers
  (seconds).  All timestamps in the Python code are timezone-aware UTC
  datetimes serialized in ISO-8601; comparisons on such datetimes (and on
  their ISO strings, which share the same order for a fixed format) agree
  with comparisons on the underlying instants, which we represent as `Int`.
  `timedelta(hours=48)` is `172800` seconds.
- Record ids are `Int` (JSON integers are unbounded).
- A request body field that may be absent is `Option _`; Python truthiness
  of a string (`not data.get('content')`) is `none` or `some ""`.
- A client-supplied `last_update` query parameter is `Option (Option Int)`:
  `none` when the parameter is absent (or empty, which Python treats as
  falsy, giving the same outcome), `some none` when it is present but
  `datetime.fromisoformat` fails on it, `some (some t)` when it parses to
  the instant `t`.
- File persistence is collapsed into a pure `ServerState`; `save_data`
  successfully writing a collection becomes replacing that component of the
  state and setting `lastUpdateTime` to the current instant.  `load_data`'s
  error recovery is modelled separately on an `Except` input (C9).
- Each handler takes `now : Int`, the instant of the request; the code
  calls `datetime.now` more than once within a request (e.g. stamping
  `created_at` and then `LAST_UPDATE_TIME` inside `save_data`), all within
  the same request instant here.
-/

/-- A stored post record (`whisper` dict in `app.py`). -/
structure Whisper where
  id : Int
  content : String
  topic : String
  is_sensitive : Bool
  replies_count : Nat
  created_at : Int
deriving DecidableEq

/-- A stored reply record (`reply` dict in `app.py`). -/
structure Reply where
  id : Int
  whisper_id : Int
  content : String
  created_at : Int
deriving DecidableEq

/-- The mutable server state: the two persisted collections
(`whispers.json`, `replies.json`) and the process-wide `LAST_UPDATE_TIME`. -/
structure ServerState where
  whispers : List Whisper
  replies : List Reply
  lastUpdateTime : Int
deriving DecidableEq

/-- `ALL_TOPICS` from `app.py`: the fixed closed set of 15 topics. -/
def ALL_TOPICS : List String :=
  ["confession", "life", "secrets", "advice", "love",
   "series-movies", "politically-incorrect", "paranormal",
   "health-fitness", "vent", "music", "fashion",
   "gaming", "otaku-stuff", "random"]

/-- `load_data`: `json.load` wrapped in `try/except`; any read or parse
failure (the `Except.error` case) is logged and an empty list is returned. -/
def load_data {α : Type} (raw : Except String (List α)) : List α :=
  match raw with
  | Except.ok records => records
  | Except.error _ => []

/-- Python `str.strip()` with no argument: remove whitespace from both
ends of the string. -/
def pyStrip (s : String) : String :=
  ⟨(((s.data.dropWhile Char.isWhitespace).reverse).dropWhile Char.isWhitespace).reverse⟩

/-- Python `max(list, default=d)`: the maximum element of a non-empty list,
`d` when the list is empty. -/
def maxD : List Int → Int → Int
  | [], d => d
  | x :: xs, _ => xs.foldl max x

/-- The loop in `cleanup_old_whispers` partitioning whispers into
`filtered_whispers` (strictly newer than the cutoff, kept in order) and
`deleted_ids` (ids of the rest, in order). -/
def partitionWhispers (cutoff : Int) : List Whisper → List Whisper × List Int
  | [] => ([], [])
  | w :: ws =>
    let rest := partitionWhispers cutoff ws
    if cutoff < w.created_at then (w :: rest.1, rest.2) else (rest.1, w.id :: rest.2)

/-- One save of a whole collection by `save_data`; the sweep's write trace
records these in order, so that "replies are saved before posts" is visible
in the model. -/
inductive SaveEvent where
  | savedReplies (rs : List Reply)
  | savedWhispers (ws : List Whisper)
deriving DecidableEq

/-- `cleanup_old_whispers`: drop posts whose `created_at` is not strictly
after `now - 48h`; when any were dropped, filter the replies whose
`whisper_id` is among the dropped ids, save replies, then save the kept
whispers.  Returns the new state and the trace of saves performed. -/
def cleanup_old_whispers (st : ServerState) (now : Int) : ServerState × List SaveEvent :=
  let cutoff := now - 172800
  let p := partitionWhispers cutoff st.whispers
  if p.2 = [] then (st, [])
  else
    let filtered_replies := st.replies.filter (fun r => decide (r.whisper_id ∉ p.2))
    (⟨p.1, filtered_replies, now⟩,
     [SaveEvent.savedReplies filtered_replies, SaveEvent.savedWhispers p.1])

/-- Descending insertion by `created_at`, auxiliary to `sortByCreatedDesc`. -/
def insertDesc (w : Whisper) : List Whisper → List Whisper
  | [] => [w]
  | x :: xs => if w.created_at ≤ x.created_at then x :: insertDesc w xs else w :: x :: xs

/-- `whispers.sort(key=lambda x: x['created_at'], reverse=True)`: a stable
sort placing larger `created_at` first. -/
def sortByCreatedDesc : List Whisper → List Whisper
  | [] => []
  | w :: ws => insertDesc w (sortByCreatedDesc ws)

/-- The response body of `GET /api/whispers` (success case). -/
structure WhispersResponse where
  data : List Whisper
  last_update : Int
  current_topic : String
deriving DecidableEq

/-- `get_whispers` (`GET /api/whispers`): run the sweep synchronously,
then filter by topic when the parameter is truthy and not `"all"` — note
the code first replaces an unrecognized topic by `"all"` and then still
filters with it — then sort descending by `created_at`.  Returns the
post-sweep state and the response. -/
def get_whispers (st : ServerState) (now : Int) (topicArg : Option String) :
    ServerState × WhispersResponse :=
  let cleaned := (cleanup_old_whispers st now).1
  let topic := topicArg.getD "all"
  let pair :=
    if topic ≠ "" ∧ topic ≠ "all" then
      let topic := if decide (topic ∈ ALL_TOPICS) then topic else "all"
      (topic, cleaned.whispers.filter (fun w => decide (w.topic = topic)))
    else (topic, cleaned.whispers)
  (cleaned, ⟨sortByCreatedDesc pair.2, cleaned.lastUpdateTime, pair.1⟩)

/-- The response body of `GET /api/check-updates` (success case). -/
structure CheckUpdatesResponse where
  has_updates : Bool
  last_update : Int
  total_whispers : Nat
  topic : String
deriving DecidableEq

/-- `check_updates` (`GET /api/check-updates`).  When the client topic is
truthy, not `"all"` and unrecognized, the code assigns `client_topic='all'`
but leaves `current_count` unassigned; building the response then raises
`UnboundLocalError`, which the surrounding `except` turns into a 500 error
response — the `Except.error` case here. -/
def check_updates (st : ServerState) (lastUpdate : Option (Option Int))
    (topicArg : Option String) : Except String CheckUpdatesResponse :=
  let client_topic := topicArg.getD "all"
  let data_changed : Bool :=
    match lastUpdate with
    | none => true
    | some none => true
    | some (some t) => decide (st.lastUpdateTime > t)
  if client_topic ≠ "" ∧ client_topic ≠ "all" then
    if decide (client_topic ∈ ALL_TOPICS) then
      Except.ok ⟨data_changed, st.lastUpdateTime,
        (st.whispers.filter (fun w => decide (w.topic = client_topic))).length,
        client_topic⟩
    else
      Except.error "UnboundLocalError: current_count referenced before assignment"
  else
    Except.ok ⟨data_changed, st.lastUpdateTime, st.whispers.length, client_topic⟩

/-- `get_whisper` (`GET /api/whispers/<id>`): find the first whisper with
the requested id (404 when absent) and overwrite its `replies_count` with
the freshly computed number of stored replies referencing the id. -/
def get_whisper (st : ServerState) (id : Int) : Except String Whisper :=
  match st.whispers.find? (fun w => decide (w.id = id)) with
  | none => Except.error "Whisper not found"
  | some w =>
      Except.ok { w with
        replies_count := (st.replies.filter (fun r => decide (r.whisper_id = id))).length }

/-- `create_whisper` (`POST /api/whispers`): reject when the body or its
`content` is falsy (absent or the empty string — whitespace-only content is
truthy and passes); assign `max id + 1`, coerce an unrecognized topic to
`"random"`, store the trimmed content, append and save.  Persistence is
modelled as succeeding. -/
def create_whisper (st : ServerState) (now : Int) (content : Option String)
    (topicArg : Option String) (sens : Option Bool) :
    ServerState × Except String Whisper :=
  match content with
  | none => (st, Except.error "Content required")
  | some c =>
    if c = "" then (st, Except.error "Content required")
    else
      let new_id := maxD (st.whispers.map Whisper.id) 0 + 1
      let topic := topicArg.getD "random"
      let topic := if decide (topic ∈ ALL_TOPICS) then topic else "random"
      let w : Whisper := ⟨new_id, pyStrip c, topic, sens.getD false, 0, now⟩
      ({ st with whispers := st.whispers ++ [w], lastUpdateTime := now }, Except.ok w)

/-- Mutation of the first whisper whose id matches, as performed by
`whisper['replies_count'] = ...` on the record returned by `next(...)`
before the whole list is saved back. -/
def setRepliesCountFirst (id : Int) (cnt : Nat) : List Whisper → List Whisper
  | [] => []
  | w :: ws =>
    if w.id = id then { w with replies_count := cnt } :: ws
    else w :: setRepliesCountFirst id cnt ws

/-- `create_reply` (`POST /api/whispers/<id>/replies`): reject falsy
content first; 404 when no whisper has the target id; otherwise append a
reply with id `max reply id + 1`, save replies, recompute the parent's
`replies_count` from the saved replies and save whispers. -/
def create_reply (st : ServerState) (now : Int) (id : Int) (content : Option String) :
    ServerState × Except String Reply :=
  match content with
  | none => (st, Except.error "Content required")
  | some c =>
    if c = "" then (st, Except.error "Content required")
    else
      match st.whispers.find? (fun w => decide (w.id = id)) with
      | none => (st, Except.error "Whisper not found")
      | some _ =>
        let new_id := maxD (st.replies.map Reply.id) 0 + 1
        let reply : Reply := ⟨new_id, id, pyStrip c, now⟩
        let replies := st.replies ++ [reply]
        let cnt := (replies.filter (fun r => decide (r.whisper_id = id))).length
        (⟨setRepliesCountFirst id cnt st.whispers, replies, now⟩, Except.ok reply)

/-- The spec's "expired-id set" at a sweep instant: ids of stored posts
whose `created_at` is at or before `now - 48h`. -/
def expiredIds (st : ServerState) (now : Int) : List Int :=
  (st.whispers.filter (fun w => decide (w.created_at ≤ now - 172800))).map Whisper.id

/-- Sortedness by `created_at`, largest first. -/
def SortedDesc (l : List Whisper) : Prop :=
  l.Pairwise (fun a b => b.created_at ≤ a.created_at)

theorem le_foldl_max (l : List Int) (b : Int) : b ≤ l.foldl max b := by
  induction l generalizing b with
  | nil => exact le_refl b
  | cons x xs ih => exact le_trans (le_max_left b x) (ih (max b x))

theorem mem_le_foldl_max {l : List Int} {a : Int} (h : a ∈ l) (b : Int) :
    a ≤ l.foldl max b := by
  induction l generalizing b with
  | nil => cases h
  | cons x xs ih =>
    rcases List.mem_cons.mp h with rfl | hx
    · exact le_trans (le_max_right b a) (le_foldl_max xs (max b a))
    · exact ih hx (max b x)

theorem mem_le_maxD {l : List Int} {a : Int} (h : a ∈ l) (d : Int) : a ≤ maxD l d := by
  cases l with
  | nil => cases h
  | cons x xs =>
    rcases List.mem_cons.mp h with rfl | hx
    · exact le_foldl_max xs a
    · exact mem_le_foldl_max hx x

theorem mem_insertDesc {w a : Whisper} :
    ∀ {l : List Whisper}, a ∈ insertDesc w l ↔ a = w ∨ a ∈ l := by
  intro l
  induction l with
  | nil => simp [insertDesc]
  | cons x xs ih =>
    by_cases h : w.created_at ≤ x.created_at
    · rw [insertDesc, if_pos h]
      rw [List.mem_cons, ih, List.mem_cons]
      tauto
    · rw [insertDesc, if_neg h]
      simp only [List.mem_cons]

theorem sortedDesc_insertDesc {w : Whisper} :
    ∀ {l : List Whisper}, SortedDesc l → SortedDesc (insertDesc w l) := by
  intro l hl
  induction l with
  | nil => simp [insertDesc, SortedDesc]
  | cons x xs ih =>
    rcases (List.pairwise_cons.mp hl) with ⟨hx, hxs⟩
    by_cases h : w.created_at ≤ x.created_at
    · rw [insertDesc, if_pos h]
      refine List.pairwise_cons.mpr ⟨?_, ih hxs⟩
      intro b hb
      rcases mem_insertDesc.mp hb with rfl | hbx
      · exact h
      · exact hx b hbx
    · rw [insertDesc, if_neg h]
      refine List.pairwise_cons.mpr ⟨?_, hl⟩
      intro b hb
      rcases List.mem_cons.mp hb with rfl | hbx
      · exact le_of_not_le h
      · exact le_trans (hx b hbx) (le_of_not_le h)

theorem mem_sortByCreatedDesc {a : Whisper} :
    ∀ {l : List Whisper}, a ∈ sortByCreatedDesc l ↔ a ∈ l := by
  intro l
  induction l with
  | nil => simp [sortByCreatedDesc]
  | cons x xs ih =>
    simp only [sortByCreatedDesc, mem_insertDesc, ih, List.mem_cons]

theorem sortedDesc_sortByCreatedDesc (l : List Whisper) :
    SortedDesc (sortByCreatedDesc l) := by
  induction l with
  | nil => simp [sortByCreatedDesc, SortedDesc]
  | cons x xs ih => exact sortedDesc_insertDesc ih

theorem find?_setRepliesCountFirst (id : Int) (cnt : Nat) :
    ∀ ws : List Whisper,
      (setRepliesCountFirst id cnt ws).find? (fun w => decide (w.id = id))
        = (ws.find? (fun w => decide (w.id = id))).map
            (fun w => { w with replies_count := cnt }) := by
  intro ws
  induction ws with
  | nil => rfl
  | cons w ws ih =>
    by_cases h : w.id = id
    · rw [setRepliesCountFirst, if_pos h]
      rw [List.find?_cons, List.find?_cons]
      simp [h]
    · rw [setRepliesCountFirst, if_neg h]
      rw [List.find?_cons, List.find?_cons]
      have hd : (decide (w.id = id)) = false := by simp [h]
      simp only [hd]
      exact ih

theorem partitionWhispers_eq (cutoff : Int) (l : List Whisper) :
    partitionWhispers cutoff l
      = (l.filter (fun w => decide (cutoff < w.created_at)),
         (l.filter (fun w => decide (w.created_at ≤ cutoff))).map Whisper.id) := by
  induction l with
  | nil => rfl
  | cons w ws ih =>
    by_cases h : cutoff < w.created_at
    · simp only [partitionWhispers, ih, if_pos h, List.filter_cons]
      simp [h, not_le.mpr h]
    · simp only [partitionWhispers, ih, if_neg h, List.filter_cons]
      simp [h, not_lt.mp h]

theorem newWhisperId_not_mem (st : ServerState) :
    ∀ w ∈ st.whispers, ¬ w.id = maxD (st.whispers.map Whisper.id) 0 + 1 := by
  intro w hw
  have hle : w.id ≤ maxD (st.whispers.map Whisper.id) 0 :=
    mem_le_maxD (List.mem_map_of_mem Whisper.id hw) 0
  omega

/-- C1: (counterexample to the claim as stated) a create-post request with
whitespace-only content `" "` is NOT rejected: Python truthiness sees a
non-empty string, so validation passes, the content is stripped to `""`,
and the stored Posts collection gains a record. -/
theorem C1_counterexample :
    (create_whisper ⟨[], [], 0⟩ 5 (some " ") none none).1.whispers
        = [⟨1, "", "random", false, 0, 5⟩]
    ∧ (create_whisper ⟨[], [], 0⟩ 5 (some " ") none none).2
        = Except.ok ⟨1, "", "random", false, 0, 5⟩ :=
  ⟨by decide, rfl⟩

/-- C1 (amended): a create-post request whose content is absent or the
empty string is rejected with a validation error and the server state,
in particular the stored Posts collection, is unchanged.  (Whitespace-only
content is truthy and is accepted, stored stripped to the empty string.) -/
theorem C1_create_empty_rejected (st : ServerState) (now : Int)
    (content : Option String) (topicArg : Option String) (sens : Option Bool)
    (h : content = none ∨ content = some "") :
    create_whisper st now content topicArg sens
      = (st, Except.error "Content required") := by
  rcases h with rfl | rfl
  · rfl
  · rfl

/-- Witness for C1: the empty-content rejection at a concrete state. -/
theorem C1_create_empty_rejected_witness :
    create_whisper ⟨[], [], 3⟩ 4 none none none
      = (⟨[], [], 3⟩, Except.error "Content required") :=
  C1_create_empty_rejected ⟨[], [], 3⟩ 4 none none none (Or.inl rfl)

/-- C2: at an unrecognized topic, `check_updates` does NOT fall back to
`"all"` and report success: the code sets `client_topic = 'all'` but never
assigns `current_count`, so building the response raises
`UnboundLocalError`, answered as a 500 error response. -/
theorem C2_invalid_topic_errors :
    check_updates ⟨[⟨1, "hi", "music", false, 0, 50⟩], [], 50⟩ (some (some 49))
        (some "not-a-real-topic")
      = Except.error "UnboundLocalError: current_count referenced before assignment" :=
  rfl

/-- C4: (counterexample to the claim as stated) a check-updates request
with no `last_update` but an unrecognized topic does not report stale: it
errors (see C2). -/
theorem C4_counterexample :
    check_updates ⟨[], [], 0⟩ none (some "nonexistent-topic")
      = Except.error "UnboundLocalError: current_count referenced before assignment" :=
  rfl

/-- C4 (amended): for every check-updates request that produces a success
response (any request whose topic is omitted, empty, `"all"`, or in the
fixed topic set): absent `last_update` reports stale; a malformed
`last_update` reports stale; a `last_update` equal to the shared timestamp
reports not-stale; one strictly below it reports stale. -/
theorem C4_staleness (st : ServerState) (topicArg : Option String)
    (r : CheckUpdatesResponse) :
    (check_updates st none topicArg = Except.ok r → r.has_updates = true)
    ∧ (check_updates st (some none) topicArg = Except.ok r → r.has_updates = true)
    ∧ (∀ t : Int, check_updates st (some (some t)) topicArg = Except.ok r →
        (t = st.lastUpdateTime → r.has_updates = false)
        ∧ (t < st.lastUpdateTime → r.has_updates = true)) := by
  refine ⟨?_, ?_, ?_⟩
  · intro h
    simp only [check_updates] at h
    split_ifs at h <;> simp only [Except.ok.injEq] at h <;> subst h <;> rfl
  · intro h
    simp only [check_updates] at h
    split_ifs at h <;> simp only [Except.ok.injEq] at h <;> subst h <;> rfl
  · intro t h
    simp only [check_updates] at h
    split_ifs at h <;> simp only [Except.ok.injEq] at h <;> subst h <;>
      refine ⟨fun he => by simp [he], fun hlt => by simp [hlt]⟩

/-- Witness for C4: a request with no `last_update` against a concrete
state reports stale. -/
theorem C4_staleness_witness :
    (CheckUpdatesResponse.mk true 7 0 "all").has_updates = true :=
  (C4_staleness ⟨[], [], 7⟩ none ⟨true, 7, 0, "all"⟩).1 rfl

/-- C5: (counterexample to the claim as stated) a create-reply request
whose target post id is absent is not always answered with not-found: when
the content is also missing, the content validation fires first and the
response is the 400 validation error, not the 404. -/
theorem C5_counterexample :
    create_reply ⟨[], [], 0⟩ 5 7 none = (⟨[], [], 0⟩, Except.error "Content required") :=
  rfl

/-- C9: `load_data` maps every read/parse failure to the empty collection
and returns successfully parsed records unchanged; it never propagates an
error to the caller. -/
theorem C9_load_data :
    (∀ e : String, load_data (Except.error e) = ([] : List Whisper))
    ∧ (∀ e : String, load_data (Except.error e) = ([] : List Reply))
    ∧ (∀ records : List Whisper, load_data (Except.ok records) = records)
    ∧ (∀ records : List Reply, load_data (Except.ok records) = records) :=
  ⟨fun _ => rfl, fun _ => rfl, fun _ => rfl, fun _ => rfl⟩

/-- C10: a successful single-post fetch reports `replies_count` as the
number of stored replies referencing the requested id, regardless of the
cached `replies_count` on the stored record. -/
theorem C10_fresh_count (st : ServerState) (id : Int) (w : Whisper)
    (h : get_whisper st id = Except.ok w) :
    w.replies_count = (st.replies.filter (fun r => decide (r.whisper_id = id))).length := by
  unfold get_whisper at h
  cases hf : st.whispers.find? (fun w => decide (w.id = id)) with
  | none => rw [hf] at h; cases h
  | some u =>
    rw [hf] at h
    simp only [Except.ok.injEq] at h
    subst h
    rfl

/-- Witness for C10: a stored record caching `replies_count = 99` is
fetched with the true count 1. -/
theorem C10_fresh_count_witness :
    (Whisper.mk 3 "x" "vent" true 1 10).replies_count
      = (([⟨1, 3, "r", 11⟩] : List Reply).filter (fun r => decide (r.whisper_id = 3))).length :=
  C10_fresh_count ⟨[⟨3, "x", "vent", true, 99, 10⟩], [⟨1, 3, "r", 11⟩], 12⟩ 3
    ⟨3, "x", "vent", true, 1, 10⟩ rfl

/-- C7: a successfully created post gets id `max existing post id + 1`
(so `1` on an empty collection), a successfully created reply gets id
`max existing reply id + 1` (so `1` on an empty collection), and the post
id computation is independent of the Replies collection (as the reply id
formula, mentioning only the Replies collection, is of the Posts one). -/
theorem C7_id_assignment (st : ServerState) (now : Int) (c : String) (hc : c ≠ "")
    (topicArg : Option String) (sens : Option Bool) (pid : Int) :
    (∀ w, (create_whisper st now (some c) topicArg sens).2 = Except.ok w →
        w.id = maxD (st.whispers.map Whisper.id) 0 + 1
        ∧ (st.whispers = [] → w.id = 1))
    ∧ (∀ rp, (create_reply st now pid (some c)).2 = Except.ok rp →
        rp.id = maxD (st.replies.map Reply.id) 0 + 1
        ∧ (st.replies = [] → rp.id = 1))
    ∧ (∀ rs : List Reply,
        (create_whisper { st with replies := rs } now (some c) topicArg sens).2
          = (create_whisper st now (some c) topicArg sens).2) := by
  refine ⟨?_, ?_, ?_⟩
  · intro w h
    simp only [create_whisper, if_neg hc, Except.ok.injEq] at h
    subst h
    exact ⟨rfl, fun he => by simp [he, maxD]⟩
  · intro rp h
    simp only [create_reply, if_neg hc] at h
    cases hf : st.whispers.find? (fun w => decide (w.id = pid)) with
    | none => rw [hf] at h; cases h
    | some u =>
      rw [hf] at h
      simp only [Except.ok.injEq] at h
      subst h
      exact ⟨rfl, fun he => by simp [he, maxD]⟩
  · intro rs
    simp only [create_whisper, if_neg hc]

/-- Witness for C7: with one stored post of id 5, a created post gets
id 6. -/
theorem C7_id_assignment_witness :
    (Whisper.mk 6 "hey" "random" false 0 9).id
      = maxD (([⟨5, "a", "vent", false, 0, 1⟩] : List Whisper).map Whisper.id) 0 + 1 :=
  ((C7_id_assignment ⟨[⟨5, "a", "vent", false, 0, 1⟩], [⟨3, 5, "r", 2⟩], 2⟩ 9 "hey"
      (by decide) none none 5).1 ⟨6, "hey", "random", false, 0, 9⟩ rfl).1

theorem cleanup_old_whispers_eq (st : ServerState) (now : Int) :
    cleanup_old_whispers st now =
      if (st.whispers.filter (fun w => decide (w.created_at ≤ now - 172800))).map Whisper.id
          = [] then
        (st, [])
      else
        (⟨st.whispers.filter (fun w => decide (now - 172800 < w.created_at)),
          st.replies.filter (fun r => decide (r.whisper_id ∉
            (st.whispers.filter (fun w => decide (w.created_at ≤ now - 172800))).map Whisper.id)),
          now⟩,
         [SaveEvent.savedReplies (st.replies.filter (fun r => decide (r.whisper_id ∉
            (st.whispers.filter (fun w => decide (w.created_at ≤ now - 172800))).map Whisper.id))),
          SaveEvent.savedWhispers
            (st.whispers.filter (fun w => decide (now - 172800 < w.created_at)))]) := by
  simp only [cleanup_old_whispers, partitionWhispers_eq]

/-- C3: each sweep keeps exactly the posts strictly newer than
`now - 48h`; when some post expired, the stored Replies become exactly
those not referencing an expired id and the write trace is "save filtered
replies, then save kept whispers"; when nothing expired, no write happens
and the state is untouched. -/
theorem C3_sweep (st : ServerState) (now : Int) :
    ((cleanup_old_whispers st now).1.whispers
        = st.whispers.filter (fun w => decide (now - 172800 < w.created_at)))
    ∧ ((∃ w ∈ st.whispers, w.created_at ≤ now - 172800) →
        (cleanup_old_whispers st now).1.replies
            = st.replies.filter (fun r => decide (r.whisper_id ∉ expiredIds st now))
        ∧ (cleanup_old_whispers st now).2
            = [SaveEvent.savedReplies ((cleanup_old_whispers st now).1.replies),
               SaveEvent.savedWhispers ((cleanup_old_whispers st now).1.whispers)])
    ∧ ((∀ w ∈ st.whispers, now - 172800 < w.created_at) →
        cleanup_old_whispers st now = (st, [])) := by
  rw [cleanup_old_whispers_eq]
  by_cases he :
      (st.whispers.filter (fun w => decide (w.created_at ≤ now - 172800))).map Whisper.id = []
  · rw [if_pos he]
    have hfil : st.whispers.filter (fun w => decide (w.created_at ≤ now - 172800)) = [] :=
      List.map_eq_nil_iff.mp he
    have hall : ∀ w ∈ st.whispers, now - 172800 < w.created_at := by
      intro w hw
      have hx := List.filter_eq_nil_iff.mp hfil w hw
      simpa using hx
    refine ⟨?_, ?_, fun _ => rfl⟩
    · exact (List.filter_eq_self.mpr (fun a ha => by simpa using hall a ha)).symm
    · rintro ⟨w, hw, hle⟩
      exact absurd hle (not_le.mpr (hall w hw))
  · rw [if_neg he]
    refine ⟨rfl, fun _ => ⟨rfl, rfl⟩, ?_⟩
    intro hall
    exfalso
    apply he
    have hfil : st.whispers.filter (fun w => decide (w.created_at ≤ now - 172800)) = [] :=
      List.filter_eq_nil_iff.mpr (fun a ha => by simpa using not_le.mpr (hall a ha))
    rw [hfil]
    rfl

/-- Witness for C3: a sweep over one expired post with one reply removes
both and records the reply save before the whisper save. -/
theorem C3_sweep_witness :
    (cleanup_old_whispers ⟨[⟨1, "old", "music", false, 0, 0⟩], [⟨1, 1, "r", 3⟩], 0⟩
        200000).1.replies
      = ([⟨1, 1, "r", 3⟩] : List Reply).filter (fun r => decide (r.whisper_id ∉
          expiredIds ⟨[⟨1, "old", "music", false, 0, 0⟩], [⟨1, 1, "r", 3⟩], 0⟩ 200000))
    ∧ (cleanup_old_whispers ⟨[⟨1, "old", "music", false, 0, 0⟩], [⟨1, 1, "r", 3⟩], 0⟩
        200000).2
      = [SaveEvent.savedReplies
          ((cleanup_old_whispers ⟨[⟨1, "old", "music", false, 0, 0⟩], [⟨1, 1, "r", 3⟩], 0⟩
              200000).1.replies),
         SaveEvent.savedWhispers
          ((cleanup_old_whispers ⟨[⟨1, "old", "music", false, 0, 0⟩], [⟨1, 1, "r", 3⟩], 0⟩
              200000).1.whispers)] :=
  (C3_sweep ⟨[⟨1, "old", "music", false, 0, 0⟩], [⟨1, 1, "r", 3⟩], 0⟩ 200000).2.1
    ⟨⟨1, "old", "music", false, 0, 0⟩, by decide, by decide⟩

/-- C5 (amended): for a create-reply request with non-empty content: when
no stored post has the target id, the request reports not-found and the
state is unchanged (when the content is empty/missing the validation error
fires first — see the counterexample); when the single-post fetch of the
target succeeds before the reply creation, the same fetch afterwards
observes `replies_count` exactly one greater. -/
theorem C5_reply (st : ServerState) (now pid : Int) (c : String) (hc : c ≠ "") :
    (st.whispers.find? (fun w => decide (w.id = pid)) = none →
        create_reply st now pid (some c) = (st, Except.error "Whisper not found"))
    ∧ (∀ w0, get_whisper st pid = Except.ok w0 →
        (get_whisper (create_reply st now pid (some c)).1 pid).map Whisper.replies_count
          = Except.ok (w0.replies_count + 1)) := by
  constructor
  · intro hf
    simp only [create_reply, if_neg hc, hf]
  · intro w0 h0
    unfold get_whisper at h0
    cases hf : st.whispers.find? (fun w => decide (w.id = pid)) with
    | none => rw [hf] at h0; cases h0
    | some u =>
      rw [hf] at h0
      simp only [Except.ok.injEq] at h0
      subst h0
      simp only [create_reply, if_neg hc, hf]
      unfold get_whisper
      rw [find?_setRepliesCountFirst, hf]
      simp [List.filter_append, Except.map]

/-- Witness for C5: with one stored post fetched at count 0, the fetch
after a reply creation observes count 1. -/
theorem C5_reply_witness :
    (get_whisper (create_reply ⟨[⟨1, "p", "vent", false, 0, 10⟩], [], 10⟩ 11 1 (some "r")).1
        1).map Whisper.replies_count
      = Except.ok ((Whisper.mk 1 "p" "vent" false 0 10).replies_count + 1) :=
  (C5_reply ⟨[⟨1, "p", "vent", false, 0, 10⟩], [], 10⟩ 11 1 "r" (by decide)).2
    ⟨1, "p", "vent", false, 0, 10⟩ rfl

/-- C8: a post created successfully is found again by its id, and the
fetched record carries identical `content` (the submitted content
stripped), `topic`, `is_sensitive` and `created_at` to the record the
create operation returned. -/
theorem C8_roundtrip (st : ServerState) (now : Int) (c : String) (hc : c ≠ "")
    (topicArg : Option String) (sens : Option Bool) (w : Whisper)
    (h : (create_whisper st now (some c) topicArg sens).2 = Except.ok w) :
    w.content = pyStrip c
    ∧ (get_whisper (create_whisper st now (some c) topicArg sens).1 w.id).map
        (fun x => (x.content, x.topic, x.is_sensitive, x.created_at))
      = Except.ok (w.content, w.topic, w.is_sensitive, w.created_at) := by
  simp only [create_whisper, if_neg hc, Except.ok.injEq] at h
  subst h
  refine ⟨rfl, ?_⟩
  unfold get_whisper
  simp only [create_whisper, if_neg hc]
  rw [List.find?_append]
  have h1 : st.whispers.find?
      (fun x => decide (x.id = maxD (st.whispers.map Whisper.id) 0 + 1)) = none :=
    List.find?_eq_none.mpr (fun x hx => by simpa using newWhisperId_not_mem st x hx)
  rw [h1]
  simp [Except.map]

theorem mem_ALL_TOPICS_props {t : String} (h : t ∈ ALL_TOPICS) : t ≠ "" ∧ t ≠ "all" := by
  simp only [ALL_TOPICS] at h
  fin_cases h <;> exact ⟨by decide, by decide⟩

theorem get_whispers_eq (st : ServerState) (now : Int) (t : String) :
    get_whispers st now (some t) =
      ((cleanup_old_whispers st now).1,
       if t ≠ "" ∧ t ≠ "all" then
         if t ∈ ALL_TOPICS then
           ⟨sortByCreatedDesc ((cleanup_old_whispers st now).1.whispers.filter
              (fun w => decide (w.topic = t))),
            (cleanup_old_whispers st now).1.lastUpdateTime, t⟩
         else
           ⟨sortByCreatedDesc ((cleanup_old_whispers st now).1.whispers.filter
              (fun w => decide (w.topic = "all"))),
            (cleanup_old_whispers st now).1.lastUpdateTime, "all"⟩
       else
         ⟨sortByCreatedDesc (cleanup_old_whispers st now).1.whispers,
          (cleanup_old_whispers st now).1.lastUpdateTime, t⟩) := by
  simp only [get_whispers, Option.getD_some]
  by_cases h1 : t ≠ "" ∧ t ≠ "all"
  · rw [if_pos h1, if_pos h1]
    by_cases h2 : t ∈ ALL_TOPICS
    · simp [h2]
    · simp [h2]
  · rw [if_neg h1, if_neg h1]

/-- C6 (amended): listing with topic `t` always returns a sequence sorted
by `created_at` descending and the post-sweep shared timestamp; when `t`
is in the fixed topic set the data is exactly the surviving posts of topic
`t` and the effective topic is `t`; when `t` is unrecognized (and truthy,
not `"all"`) the effective topic becomes `"all"` but the filter is STILL
applied with the literal `"all"`, so only posts whose stored topic is the
string `"all"` are returned — not the unfiltered listing the claim
states. -/
theorem C6_list (st : ServerState) (now : Int) (t : String) :
    SortedDesc (get_whispers st now (some t)).2.data
    ∧ (get_whispers st now (some t)).2.last_update
        = (cleanup_old_whispers st now).1.lastUpdateTime
    ∧ (t ∈ ALL_TOPICS →
        (get_whispers st now (some t)).2.current_topic = t
        ∧ ∀ w, w ∈ (get_whispers st now (some t)).2.data ↔
            (w ∈ (cleanup_old_whispers st now).1.whispers ∧ w.topic = t))
    ∧ (t ∉ ALL_TOPICS → t ≠ "all" → t ≠ "" →
        (get_whispers st now (some t)).2.current_topic = "all"
        ∧ ∀ w, w ∈ (get_whispers st now (some t)).2.data ↔
            (w ∈ (cleanup_old_whispers st now).1.whispers ∧ w.topic = "all")) := by
  rw [get_whispers_eq]
  refine ⟨?_, ?_, ?_, ?_⟩
  · split_ifs <;> exact sortedDesc_sortByCreatedDesc _
  · split_ifs <;> rfl
  · intro ht
    rw [if_pos (mem_ALL_TOPICS_props ht), if_pos ht]
    refine ⟨rfl, ?_⟩
    intro w
    rw [mem_sortByCreatedDesc, List.mem_filter]
    simp
  · intro hnt hna hne
    rw [if_pos ⟨hne, hna⟩, if_neg hnt]
    refine ⟨rfl, ?_⟩
    intro w
    rw [mem_sortByCreatedDesc, List.mem_filter]
    simp

/-- C6: (counterexample to the claim as stated) with one stored post of
topic `"music"`, listing with the unrecognized topic `"bogus"` returns an
empty data sequence (effective topic `"all"`, filter still applied),
whereas the claim says no filter is applied. -/
theorem C6_counterexample :
    (get_whispers ⟨[⟨1, "hello", "music", false, 0, 100⟩], [], 100⟩ 100
        (some "bogus")).2.data = []
    ∧ (get_whispers ⟨[⟨1, "hello", "music", false, 0, 100⟩], [], 100⟩ 100
        (some "bogus")).2.current_topic = "all"
    ∧ (get_whispers ⟨[⟨1, "hello", "music", false, 0, 100⟩], [], 100⟩ 100
        (some "all")).2.data = [⟨1, "hello", "music", false, 0, 100⟩] :=
  ⟨by decide, by decide, by decide⟩

/-- Witness for C6: listing a concrete state with the valid topic
`"music"` reports effective topic `"music"`. -/
theorem C6_list_witness :
    (get_whispers ⟨[⟨1, "a", "music", false, 0, 30⟩], [], 40⟩ 50
        (some "music")).2.current_topic = "music" :=
  ((C6_list ⟨[⟨1, "a", "music", false, 0, 30⟩], [], 40⟩ 50 "music").2.2.1 (by decide)).1

/-- Witness for C8: a concrete created post is fetched back with identical
content, topic, sensitivity flag and creation time. -/
theorem C8_roundtrip_witness :
    (Whisper.mk 1 "hello" "music" true 0 5).content = pyStrip "hello"
    ∧ (get_whisper (create_whisper ⟨[], [], 0⟩ 5 (some "hello") (some "music") (some true)).1
          (Whisper.mk 1 "hello" "music" true 0 5).id).map
        (fun x => (x.content, x.topic, x.is_sensitive, x.created_at))
      = Except.ok ((Whisper.mk 1 "hello" "music" true 0 5).content,
          (Whisper.mk 1 "hello" "music" true 0 5).topic,
          (Whisper.mk 1 "hello" "music" true 0 5).is_sensitive,
          (Whisper.mk 1 "hello" "music" true 0 5).created_at) :=
  C8_roundtrip ⟨[], [], 0⟩ 5 "hello" (by decide) (some "music") (some true)
    ⟨1, "hello", "music", true, 0, 5⟩ rfl
